import Mathlib

/-!
Verification development for the Specify.AI core: the encrypted secret store
(src/specify/core/key_manager.py) and the provider abstraction layer
(src/specify/providers/base.py, src/specify/providers/ollama.py).

The Python code is shallowly embedded: pure functions become Lean functions,
the filesystem and the CryptoManager key cache become explicitly threaded
state, and fallible operations return Except/Option. External collaborators
(the cryptography library, pathlib, json) are modelled at the interface the
core relies on, as documented at each definition.
-/

namespace Specify

/-! ### Python string primitives

Python `str.strip()` removes the ASCII whitespace characters (space, tab,
newline, carriage return, vertical tab, form feed); `str.lower()` is modelled
for the ASCII range, which covers every string the claims quantify over. -/

def isPySpace (c : Char) : Bool :=
  c = ' ' || c = '\t' || c = '\n' || c = '\r' || c = '\x0b' || c = '\x0c'

def pyStrip (s : String) : String :=
  ⟨((s.data.dropWhile isPySpace).reverse.dropWhile isPySpace).reverse⟩

def pyLower (s : String) : String :=
  ⟨s.data.map Char.toLower⟩

/-- Python substring containment (`needle in hay`). -/
def strContainsSub (hay needle : String) : Bool :=
  hay.data.tails.any (fun t => needle.data.isPrefixOf t)

instance {ε α : Type} [DecidableEq ε] [DecidableEq α] : DecidableEq (Except ε α) := fun x y =>
  match x, y with
  | .error a, .error b =>
    if h : a = b then .isTrue (by subst h; rfl) else .isFalse (by simp [h])
  | .error _, .ok _ => .isFalse (by simp)
  | .ok _, .error _ => .isFalse (by simp)
  | .ok a, .ok b =>
    if h : a = b then .isTrue (by subst h; rfl) else .isFalse (by simp [h])

/-! ### ProviderConfig (src/specify/providers/base.py, lines 133-211)

A pydantic BaseModel with fields model, api_key, base_url, timeout,
max_retries, `model_config = ConfigDict(frozen=False, extra="forbid")`,
Field bounds ge=1/le=300 on timeout, ge=0/le=10 on max_retries, and a
validator rejecting an empty or whitespace-only model and stripping it. -/

structure ProviderConfig where
  model : String
  api_key : Option String := none
  base_url : Option String := none
  timeout : Int := 60
  max_retries : Int := 3
deriving DecidableEq

/-- Keyword arguments handed to the `ProviderConfig(...)` constructor.
`none` means the keyword was not supplied; `extraFields` collects the names
of keywords outside the five declared fields. -/
structure ProviderConfigInput where
  model : Option String := none
  api_key : Option String := none
  base_url : Option String := none
  timeout : Option Int := none
  max_retries : Option Int := none
  extraFields : List String := []

inductive PCError where
  | missingModel
  | emptyModel
  | timeoutRange
  | retriesRange
  | extraForbidden
deriving DecidableEq

/-- Construction-time validation of ProviderConfig: pydantic rejects unknown
keywords (`extra="forbid"`), requires `model`, runs the `validate_model`
validator (`if not v or not v.strip(): raise`, else `return v.strip()`), and
enforces the Field bounds `1 ≤ timeout ≤ 300` and `0 ≤ max_retries ≤ 10`,
with defaults 60 and 3. -/
def mkProviderConfig (i : ProviderConfigInput) : Except PCError ProviderConfig :=
  if i.extraFields ≠ [] then .error .extraForbidden
  else
    match i.model with
    | none => .error .missingModel
    | some m =>
      if m = "" ∨ pyStrip m = "" then .error .emptyModel
      else
        let t := i.timeout.getD 60
        if ¬ (1 ≤ t ∧ t ≤ 300) then .error .timeoutRange
        else
          let r := i.max_retries.getD 3
          if ¬ (0 ≤ r ∧ r ≤ 10) then .error .retriesRange
          else .ok { model := pyStrip m, api_key := i.api_key, base_url := i.base_url,
                     timeout := t, max_retries := r }

/-- `model_config = ConfigDict(frozen=False, extra="forbid")`: the frozen
flag of ProviderConfig, as declared in the source. -/
def providerConfigFrozen : Bool := false

inductive PCFieldVal where
  | str (s : String)
  | optStr (s : Option String)
  | int (n : Int)
deriving DecidableEq

inductive SetAttrError where
  | frozenInstance
  | unknownField
deriving DecidableEq

/-- Attribute assignment on a constructed ProviderConfig, following pydantic
BaseModel semantics: with `frozen=True` assignment raises; with
`frozen=False` (and `validate_assignment` unset, as in the source) the field
is simply updated. Assignments carrying the declared field types are
modelled. -/
def ProviderConfig.setAttr (c : ProviderConfig) (field : String) (v : PCFieldVal) :
    Except SetAttrError ProviderConfig :=
  if providerConfigFrozen then .error .frozenInstance
  else
    match field, v with
    | "model", .str s => .ok { c with model := s }
    | "api_key", .optStr s => .ok { c with api_key := s }
    | "base_url", .optStr s => .ok { c with base_url := s }
    | "timeout", .int n => .ok { c with timeout := n }
    | "max_retries", .int n => .ok { c with max_retries := n }
    | _, _ => .error .unknownField

/-! ### OllamaProvider (src/specify/providers/ollama.py) -/

structure ChatMessage where
  role : String
  content : String
deriving DecidableEq

/-- `OllamaProvider._build_messages` (ollama.py lines 153-175):
starts from an empty list, appends a system message when `if rules:` is
truthy (any non-empty string, including whitespace-only), then appends the
user message. -/
def build_messages (prompt rules : String) : List ChatMessage :=
  let messages : List ChatMessage := []
  let messages := if rules ≠ "" then messages ++ [⟨"system", rules⟩] else messages
  messages ++ [⟨"user", prompt⟩]

inductive OllamaErrKind where
  | connectionError
  | responseError
deriving DecidableEq

/-- The `connection_keywords` list of `OllamaProvider._handle_error`
(ollama.py lines 192-201), verbatim from the source. -/
def connection_keywords : List String :=
  ["connection", "refused", "timeout", "unreachable", "network", "dns",
   "host not found", "name or service not known"]

/-- `OllamaProvider._handle_error` (ollama.py lines 177-210): lowercases the
textual description of the underlying failure, raises
ProviderConnectionError when any keyword of `connection_keywords` occurs in
it, and ProviderResponseError otherwise. -/
def handle_error (errorMsg : String) : OllamaErrKind :=
  let errorMessage := pyLower errorMsg
  if connection_keywords.any (fun keyword => strContainsSub errorMessage keyword)
  then .connectionError
  else .responseError

/-! ### CryptoManager (src/specify/core/key_manager.py, lines 97-424)

The `cryptography` library is modelled as an idealized authenticated scheme:
PBKDF2-HMAC-SHA-256 key derivation is injective in (machine id, salt), a
Fernet token determines the key and plaintext it was produced from, and
decryption succeeds exactly when the token was produced under the same key
(any other input, and any text that is not a valid token, fails — the
DecryptionError path). A `Str` value is a Python string: either a literal
or the urlsafe-base64 text of a Fernet token. -/

/-- The key derived by `CryptoManager._derive_key`: PBKDF2HMAC(SHA-256,
length 32, salt, 1,200,000 iterations) applied to the machine id, encoded
for Fernet. Modelled as the pair of its inputs (the KDF is treated as
injective). -/
structure FernetKey where
  machine_id : String
  salt : List Nat
  iterations : Nat
deriving DecidableEq

/-- The universe of Python strings handled by the secret store: `lit s` is
an ordinary string, `tok key plaintext` is the urlsafe-base64 encoding of
the Fernet token for `plaintext` under `key` (the form `CryptoManager.encrypt`
returns). -/
inductive Str where
  | lit (s : String)
  | tok (key : FernetKey) (plaintext : Str)
deriving DecidableEq

/-- Python truthiness of a string: empty is falsy; a base64 token text is
never empty. -/
def Str.truthy : Str → Bool
  | .lit s => !(s == "")
  | .tok _ _ => true

/-- Python `.strip()` on a `Str`: the urlsafe-base64 alphabet has no
whitespace, so stripping a token text is the identity. -/
def Str.strip : Str → Str
  | .lit s => .lit (pyStrip s)
  | .tok k p => .tok k p

/-- The value of `"_version"`/`"_encrypted"` metadata and the non-metadata
entries of the keys.json dictionary. The store only ever writes string
values for providers, and the JSON object is represented as a finite map
(its graph as a list with distinct keys); `sort_keys=True` only affects the
serialized byte order, which this structured view abstracts. -/
structure KeysFileData where
  version : Option Int := none
  encrypted : Option Bool := none
  entries : List (String × Str) := []
deriving DecidableEq

/-- Possible states of the on-disk keys.json content once it exists:
text that is not valid JSON (`json.JSONDecodeError` on load), a JSON value
that is not an object (`not isinstance(data, dict)`), or an object. -/
inductive KeysDisk where
  | invalidJson
  | nonDict
  | data (d : KeysFileData)
deriving DecidableEq

/-- The files of one configuration directory: the `.salt` file (raw bytes)
and the `keys.json` file; `none` means the file does not exist. -/
structure FS where
  saltFile : Option (List Nat) := none
  keysFile : Option KeysDisk := none
deriving DecidableEq

/-- `CryptoManager` instance state: the cached Fernet (`self._fernet`),
populated on first use by `_get_fernet`. -/
structure CryptoManager where
  fernet : Option FernetKey := none
deriving DecidableEq

def PBKDF2_ITERATIONS : Nat := 1200000

/-- `CryptoManager._load_or_create_salt` (key_manager.py lines 375-424):
reuse the salt file when it exists and holds exactly 16 bytes, otherwise
generate and persist a fresh salt. `fresh` stands for the output of
`secrets.token_bytes(16)`. -/
def load_or_create_salt (fs : FS) (fresh : List Nat) : List Nat × FS :=
  match fs.saltFile with
  | some saltData =>
    if saltData.length = 16 then (saltData, fs)
    else (fresh, { fs with saltFile := some fresh })
  | none => (fresh, { fs with saltFile := some fresh })

/-- `CryptoManager._derive_key` (lines 343-373). -/
def derive_key (machineId : String) (salt : List Nat) : FernetKey :=
  { machine_id := machineId, salt := salt, iterations := PBKDF2_ITERATIONS }

/-- `CryptoManager._get_fernet` (lines 175-187): derive the key on first
use and cache it for the lifetime of the instance. -/
def get_fernet (machineId : String) (fresh : List Nat) (cm : CryptoManager) (fs : FS) :
    FernetKey × CryptoManager × FS :=
  match cm.fernet with
  | some f => (f, cm, fs)
  | none =>
    let salted := load_or_create_salt fs fresh
    let key := derive_key machineId salted.1
    (key, { fernet := some key }, salted.2)

/-- `CryptoManager.encrypt` (lines 124-143): Fernet-encrypt the plaintext
under the derived key and return the urlsafe-base64 text of the token. -/
def CryptoManager.encrypt (machineId : String) (fresh : List Nat)
    (cm : CryptoManager) (fs : FS) (plaintext : Str) : Str × CryptoManager × FS :=
  let got := get_fernet machineId fresh cm fs
  (.tok got.1 plaintext, got.2.1, got.2.2)

/-- `CryptoManager.decrypt` (lines 145-173): decode and Fernet-decrypt;
`none` is the DecryptionError path (malformed encoding, or a token whose
authentication does not verify under the derived key). -/
def CryptoManager.decrypt (machineId : String) (fresh : List Nat)
    (cm : CryptoManager) (fs : FS) (ciphertext : Str) :
    Option Str × CryptoManager × FS :=
  let got := get_fernet machineId fresh cm fs
  match ciphertext with
  | .tok k p => if k = got.1 then (some p, got.2.1, got.2.2) else (none, got.2.1, got.2.2)
  | .lit _ => (none, got.2.1, got.2.2)

/-! ### KeyManager (src/specify/core/key_manager.py, lines 455-836) -/

inductive KMError where
  | keyValidationError
  | keyNotFoundError (provider : String)
  | decryptionError
deriving DecidableEq

def VALID_PROVIDERS : List String := ["ollama", "openai", "anthropic"]

/-- `ENV_VAR_MAPPING` (key_manager.py lines 48-52). -/
def ENV_VAR_MAPPING : String → Option String := fun p =>
  if p = "openai" then some "OPENAI_API_KEY"
  else if p = "anthropic" then some "ANTHROPIC_API_KEY"
  else if p = "ollama" then some "OLLAMA_HOST"
  else none

/-- The process environment: variable name to value, `none` when unset. -/
def Env : Type := String → Option String

/-- Lookup in a Python dict represented by the list of its items. -/
def dlookup {α : Type} : List (String × α) → String → Option α
  | [], _ => none
  | (k, v) :: rest, key => if k = key then some v else dlookup rest key

/-- `d[key] = v` on a Python dict: overwrite in place, or append. -/
def dset {α : Type} : List (String × α) → String → α → List (String × α)
  | [], key, v => [(key, v)]
  | (k, w) :: rest, key, v =>
    if k = key then (key, v) :: rest else (k, w) :: dset rest key v

/-- The encryption loop of `KeyManager._save_keys` (lines 799-805):
encrypt each value through the instance CryptoManager, threading its
key cache and the salt file. -/
def encryptEntries (machineId : String) (fresh : List Nat) (cm : CryptoManager) (fs : FS) :
    List (String × Str) → List (String × Str) × CryptoManager × FS
  | [] => ([], cm, fs)
  | (p, v) :: rest =>
    let enc := CryptoManager.encrypt machineId fresh cm fs v
    let restEnc := encryptEntries machineId fresh enc.2.1 enc.2.2 rest
    ((p, enc.1) :: restEnc.1, restEnc.2.1, restEnc.2.2)

/-- `KeyManager._save_keys` (lines 782-817): write the record set as
`{"_version": 2, "_encrypted": true, provider: ciphertext, ...}`. -/
def save_keys (machineId : String) (fresh : List Nat) (cm : CryptoManager) (fs : FS)
    (keys : List (String × Str)) : CryptoManager × FS :=
  let enc := encryptEntries machineId fresh cm fs keys
  (enc.2.1, { enc.2.2 with
    keysFile := some (.data { version := some 2, encrypted := some true, entries := enc.1 }) })

/-- The decryption loop of `KeyManager._load_keys` (lines 741-754): decrypt
each non-metadata value, failing with DecryptionError at the first value
that does not decrypt. -/
def decryptEntries (machineId : String) (fresh : List Nat) (cm : CryptoManager) (fs : FS) :
    List (String × Str) → Except KMError (List (String × Str)) × CryptoManager × FS
  | [] => (.ok [], cm, fs)
  | (p, v) :: rest =>
    let dec := CryptoManager.decrypt machineId fresh cm fs v
    match dec.1 with
    | none => (.error .decryptionError, dec.2.1, dec.2.2)
    | some plain =>
      let restDec := decryptEntries machineId fresh dec.2.1 dec.2.2 rest
      match restDec.1 with
      | .error e => (.error e, restDec.2.1, restDec.2.2)
      | .ok l => (.ok ((p, plain) :: l), restDec.2.1, restDec.2.2)

/-- `KeyManager._load_keys` (lines 704-780): missing file is the empty
record set; invalid JSON raises KeyValidationError; a non-dict top level is
treated as empty; `is_encrypted = data.get("_encrypted", False)` selects
decryption versus the legacy plaintext path, and a legacy load with at
least one non-metadata entry immediately re-saves in encrypted form
(`if needs_migration and result`). -/
def load_keys (machineId : String) (fresh : List Nat) (cm : CryptoManager) (fs : FS) :
    Except KMError (List (String × Str)) × CryptoManager × FS :=
  match fs.keysFile with
  | none => (.ok [], cm, fs)
  | some .invalidJson => (.error .keyValidationError, cm, fs)
  | some .nonDict => (.ok [], cm, fs)
  | some (.data d) =>
    let isEncrypted := d.encrypted.getD false
    if isEncrypted then
      decryptEntries machineId fresh cm fs d.entries
    else
      let result := d.entries
      if result ≠ [] then
        let saved := save_keys machineId fresh cm fs result
        (.ok result, saved.1, saved.2)
      else (.ok result, cm, fs)

/-- `KeyManager.store_key` (lines 504-543): validate the provider against
VALID_PROVIDERS (case-insensitively) and the key against emptiness
(`if not key or not key.strip()`), then load, set the stripped value under
the lowercased provider, and save. -/
def store_key (machineId : String) (fresh : List Nat) (cm : CryptoManager) (fs : FS)
    (provider : String) (key : Str) : Except KMError Unit × CryptoManager × FS :=
  let providerLower := pyLower provider
  if !(VALID_PROVIDERS.contains providerLower) then (.error .keyValidationError, cm, fs)
  else if !key.truthy || !key.strip.truthy then (.error .keyValidationError, cm, fs)
  else
    let loaded := load_keys machineId fresh cm fs
    match loaded.1 with
    | .error e => (.error e, loaded.2.1, loaded.2.2)
    | .ok keys =>
      let saved := save_keys machineId fresh loaded.2.1 loaded.2.2
        (dset keys providerLower key.strip)
      (.ok (), saved.1, saved.2)

/-- `KeyManager.get_key` (lines 545-583): local store first, then the
mapped environment variable when its value is truthy, else
KeyNotFoundError. -/
def get_key (env : Env) (machineId : String) (fresh : List Nat)
    (cm : CryptoManager) (fs : FS) (provider : String) :
    Except KMError Str × CryptoManager × FS :=
  let providerLower := pyLower provider
  let loaded := load_keys machineId fresh cm fs
  match loaded.1 with
  | .error e => (.error e, loaded.2.1, loaded.2.2)
  | .ok keys =>
    match dlookup keys providerLower with
    | some v => (.ok v, loaded.2.1, loaded.2.2)
    | none =>
      match ENV_VAR_MAPPING providerLower with
      | some envVarName =>
        match env envVarName with
        | some envValue =>
          if envValue ≠ "" then (.ok (.lit envValue), loaded.2.1, loaded.2.2)
          else (.error (.keyNotFoundError providerLower), loaded.2.1, loaded.2.2)
        | none => (.error (.keyNotFoundError providerLower), loaded.2.1, loaded.2.2)
      | none => (.error (.keyNotFoundError providerLower), loaded.2.1, loaded.2.2)

/-- `KeyManager.key_exists` (lines 647-678): present locally, or the mapped
environment variable `is not None` (even when its value is empty). -/
def key_exists (env : Env) (machineId : String) (fresh : List Nat)
    (cm : CryptoManager) (fs : FS) (provider : String) :
    Except KMError Bool × CryptoManager × FS :=
  let providerLower := pyLower provider
  let loaded := load_keys machineId fresh cm fs
  match loaded.1 with
  | .error e => (.error e, loaded.2.1, loaded.2.2)
  | .ok keys =>
    if (dlookup keys providerLower).isSome then (.ok true, loaded.2.1, loaded.2.2)
    else
      match ENV_VAR_MAPPING providerLower with
      | some envVarName => (.ok (env envVarName).isSome, loaded.2.1, loaded.2.2)
      | none => (.ok false, loaded.2.1, loaded.2.2)

/-- `KeyManager._mask_key` (lines 680-702). -/
def mask_key (key : String) : String :=
  if key.length < 6 then "***"
  else ⟨key.data.take 3⟩ ++ "..." ++ ⟨key.data.drop (key.data.length - 3)⟩

/-! ### KeyManager construction (lines 474-499)

pathlib is modelled by the one property the code relies on:
`Path.resolve()` resolves a relative path against the current working
directory, so its result is always absolute. -/

structure PyPath where
  absolute : Bool
  parts : List String
deriving DecidableEq

/-- `Path(s)` on a POSIX system: absolute exactly when the text starts
with a slash. -/
def pathFromString (s : String) : PyPath :=
  { absolute := match s.data with
      | c :: _ => c == '/'
      | [] => false,
    parts := [s] }

/-- `Path.resolve()`: make the path absolute, resolving a relative path
against the current working directory. -/
def pathResolve (cwd : PyPath) (p : PyPath) : PyPath :=
  if p.absolute then { absolute := true, parts := p.parts }
  else { absolute := true, parts := cwd.parts ++ p.parts }

def PyPath.isAbs (p : PyPath) : Bool := p.absolute

/-- `KeyManager.__init__` (lines 474-499), returning the configuration
directory it settles on: an explicit `config_dir` wins; otherwise a truthy
SPECIFY_CONFIG_DIR is resolved and rejected with KeyValidationError when
the resolved path is not absolute; otherwise `Path.home() / ".specify"`. -/
def key_manager_init (env : Env) (cwd home : PyPath) (config_dir : Option PyPath) :
    Except KMError PyPath :=
  match config_dir with
  | some d => .ok d
  | none =>
    match env "SPECIFY_CONFIG_DIR" with
    | some configDirEnv =>
      if configDirEnv ≠ "" then
        let configPath := pathResolve cwd (pathFromString configDirEnv)
        if !configPath.isAbs then .error .keyValidationError
        else .ok configPath
      else .ok { absolute := home.absolute, parts := home.parts ++ [".specify"] }
    | none => .ok { absolute := home.absolute, parts := home.parts ++ [".specify"] }

/-! ### Concrete witness inputs -/

/-- A store_key call on a fresh configuration directory, used as a concrete
instance below. -/
def c2_store_result : Except KMError Unit × CryptoManager × FS :=
  store_key "machine-b" (List.replicate 16 0) { fernet := none }
    { saltFile := none, keysFile := none } "OpenAI" (.lit "  sk-test123  ")

/-- A legacy (pre-encryption) keys.json holding one plaintext entry. -/
def c5_legacy_fs : FS :=
  { saltFile := none,
    keysFile := some (.data
      { version := none, encrypted := none,
        entries := [("openai", .lit "sk-plain-text-key")] }) }

/-! ### Helper lemmas -/

theorem pathResolve_isAbs (cwd p : PyPath) : (pathResolve cwd p).isAbs = true := by
  simp only [pathResolve, PyPath.isAbs]
  split <;> rfl

theorem load_or_create_salt_spec (fs : FS) (fresh : List Nat) (h : fresh.length = 16) :
    (load_or_create_salt fs fresh).2.saltFile = some (load_or_create_salt fs fresh).1
    ∧ ((load_or_create_salt fs fresh).1).length = 16 := by
  rcases hs : fs.saltFile with _ | d
  · simp [load_or_create_salt, hs, h]
  · by_cases hd : d.length = 16 <;> simp [load_or_create_salt, hs, hd, h]

theorem load_or_create_salt_of_good (fs : FS) (s : List Nat) (hs : fs.saltFile = some s)
    (h16 : s.length = 16) (fresh : List Nat) : load_or_create_salt fs fresh = (s, fs) := by
  simp [load_or_create_salt, hs, h16]

theorem get_fernet_of_cached (machineId : String) (fresh : List Nat)
    (cm : CryptoManager) (fs : FS) (k : FernetKey) (h : cm.fernet = some k) :
    get_fernet machineId fresh cm fs = (k, cm, fs) := by
  unfold get_fernet
  rw [h]

theorem get_fernet_cached_after (machineId : String) (fresh : List Nat)
    (cm : CryptoManager) (fs : FS) :
    ((get_fernet machineId fresh cm fs).2.1).fernet
      = some (get_fernet machineId fresh cm fs).1 := by
  rcases hc : cm.fernet with _ | k
  · simp [get_fernet, hc]
  · simp [get_fernet, hc]

theorem encryptEntries_cached (machineId : String) (fresh : List Nat)
    (cm : CryptoManager) (fs : FS) (k : FernetKey) (h : cm.fernet = some k)
    (l : List (String × Str)) :
    encryptEntries machineId fresh cm fs l
      = (l.map (fun pv => (pv.1, Str.tok k pv.2)), cm, fs) := by
  induction l with
  | nil => rfl
  | cons pv rest ih =>
    rcases pv with ⟨p, v⟩
    simp [encryptEntries, CryptoManager.encrypt,
      get_fernet_of_cached machineId fresh cm fs k h, ih]

theorem encryptEntries_eq (machineId : String) (fresh : List Nat)
    (cm : CryptoManager) (fs : FS) (l : List (String × Str)) (hl : l ≠ []) :
    encryptEntries machineId fresh cm fs l
      = (l.map (fun pv => (pv.1, Str.tok (get_fernet machineId fresh cm fs).1 pv.2)),
         (get_fernet machineId fresh cm fs).2.1, (get_fernet machineId fresh cm fs).2.2) := by
  rcases l with _ | ⟨⟨p, v⟩, rest⟩
  · exact absurd rfl hl
  · simp [encryptEntries, CryptoManager.encrypt,
      encryptEntries_cached machineId fresh _ _ _ (get_fernet_cached_after machineId fresh cm fs) rest]

theorem save_keys_eq (machineId : String) (fresh : List Nat)
    (cm : CryptoManager) (fs : FS) (keys : List (String × Str)) (h : keys ≠ []) :
    save_keys machineId fresh cm fs keys
      = ((get_fernet machineId fresh cm fs).2.1,
         { (get_fernet machineId fresh cm fs).2.2 with keysFile := some (.data
           { version := some 2, encrypted := some true,
             entries := keys.map
               (fun pv => (pv.1, Str.tok (get_fernet machineId fresh cm fs).1 pv.2)) }) }) := by
  simp [save_keys, encryptEntries_eq machineId fresh cm fs keys h]

theorem decryptEntries_cached (machineId : String) (fresh : List Nat)
    (cm : CryptoManager) (fs : FS) (k : FernetKey) (h : cm.fernet = some k)
    (l : List (String × Str)) :
    decryptEntries machineId fresh cm fs (l.map (fun pv => (pv.1, Str.tok k pv.2)))
      = (.ok l, cm, fs) := by
  induction l with
  | nil => rfl
  | cons pv rest ih =>
    rcases pv with ⟨p, v⟩
    simp [decryptEntries, CryptoManager.decrypt,
      get_fernet_of_cached machineId fresh cm fs k h, ih]

theorem dlookup_dset_self {α : Type} (l : List (String × α)) (k : String) (v : α) :
    dlookup (dset l k v) k = some v := by
  induction l with
  | nil => simp [dset, dlookup]
  | cons pw rest ih =>
    rcases pw with ⟨p, w⟩
    by_cases hp : p = k
    · simp [dset, dlookup, hp]
    · simp [dset, dlookup, hp, ih]

theorem dset_ne_nil {α : Type} (l : List (String × α)) (k : String) (v : α) :
    dset l k v ≠ [] := by
  rcases l with _ | ⟨⟨p, w⟩, rest⟩
  · simp [dset]
  · by_cases hp : p = k <;> simp [dset, hp]

theorem Str.truthy_of_strip_ne (v : Str) (h : v.strip ≠ .lit "") : v.truthy = true := by
  rcases v with ⟨s⟩ | ⟨k, p⟩
  · have hs : s ≠ "" := by
      intro hs
      exact h (by subst hs; rfl)
    simp [Str.truthy, hs]
  · rfl

theorem Str.strip_truthy_of_ne (v : Str) (h : v.strip ≠ .lit "") : v.strip.truthy = true := by
  rcases hv : v.strip with ⟨s⟩ | ⟨k, p⟩
  · rw [hv] at h
    have hs : s ≠ "" := by
      intro hs
      exact h (by rw [hs])
    simp [Str.truthy, hs]
  · rfl

theorem Str.tok_ne (v : Str) : ∀ k : FernetKey, Str.tok k v ≠ v := by
  induction v with
  | lit s => intro k h; simp at h
  | tok k2 p ih =>
    intro k h
    injection h with h1 h2
    exact ih k2 h2

/-! ### Claim theorems -/

/-- Claim C7: `_build_messages` yields exactly one user-role message holding
the prompt when rules is empty, and a leading system-role message holding
rules followed by the user-role message when rules is non-empty; a
whitespace-only rules string counts as non-empty and produces the system
message. -/
theorem C7_build_messages (prompt rules : String) :
    (rules = "" → build_messages prompt rules = [⟨"user", prompt⟩])
    ∧ (rules ≠ "" → build_messages prompt rules = [⟨"system", rules⟩, ⟨"user", prompt⟩])
    ∧ build_messages prompt "   " = [⟨"system", "   "⟩, ⟨"user", prompt⟩] := by
  refine ⟨fun h => by simp [build_messages, h], fun h => by simp [build_messages, h], ?_⟩
  have h3 : ("   " : String) ≠ "" := by decide
  simp [build_messages, h3]

/-- Claim C7 witness: concrete instances of both branches. -/
theorem C7_witness :
    build_messages "Hello" "" = [⟨"user", "Hello"⟩]
    ∧ build_messages "Hello" "Be concise." = [⟨"system", "Be concise."⟩, ⟨"user", "Hello"⟩] :=
  ⟨(C7_build_messages "Hello" "").1 rfl,
   (C7_build_messages "Hello" "Be concise.").2.1 (by decide)⟩

/-- Claim C6 counterexample: the failure text "Bad host" contains the
vocabulary word "host" (case-insensitively), yet `_handle_error` classifies
it as a response error, because the source keyword is the phrase
"host not found", not the bare word "host". -/
theorem C6_counterexample :
    strContainsSub (pyLower "Bad host") "host" = true
    ∧ handle_error "Bad host" = .responseError := by
  constructor
  · decide
  · decide

/-- Claim C6 (amended): a failure is classified as ProviderConnectionError
exactly when its lowercased text contains one of the keywords connection,
refused, timeout, unreachable, network, dns, "host not found", or
"name or service not known"; every other failure is ProviderResponseError.
In particular any text containing "refused" is a connection error, and
"Invalid model response" is a response error. -/
theorem C6_handle_error (msg : String) :
    (handle_error msg = .connectionError ↔
      connection_keywords.any (fun keyword => strContainsSub (pyLower msg) keyword) = true)
    ∧ (strContainsSub (pyLower msg) "refused" = true → handle_error msg = .connectionError)
    ∧ handle_error "Invalid model response" = .responseError := by
  refine ⟨?_, ?_, by decide⟩
  · by_cases h : connection_keywords.any (fun keyword => strContainsSub (pyLower msg) keyword) = true
    · simp [handle_error, h]
    · simp [handle_error, h]
  · intro h
    have hany : connection_keywords.any (fun keyword => strContainsSub (pyLower msg) keyword) = true := by
      refine List.any_eq_true.mpr ⟨"refused", ?_, h⟩
      simp [connection_keywords]
    simp [handle_error, hany]

/-- Claim C6 witness: a failure text containing "refused" classifies as a
connection error. -/
theorem C6_witness : handle_error "Connection refused by server" = .connectionError :=
  (C6_handle_error "Connection refused by server").2.1 (by decide)

/-- Claim C4 counterexample: ProviderConfig is declared with frozen=False,
so assigning to `model` on a constructed instance succeeds and yields a
config whose `model` differs from the original — a field of an
already-constructed ProviderConfig can be changed. -/
theorem C4_counterexample :
    ProviderConfig.setAttr { model := "llama2" } "model" (.str "mistral")
      = .ok { model := "mistral" }
    ∧ ({ model := "mistral" } : ProviderConfig).model
      ≠ ({ model := "llama2" } : ProviderConfig).model := by
  constructor
  · rfl
  · decide

/-- Claim C4 (amended): ProviderConfig is declared with
`model_config = ConfigDict(frozen=False, ...)`, so it is not immutable:
assignment to any of the five fields of an already-constructed instance
succeeds and updates that field (construction-time validation is not
re-applied on assignment). -/
theorem C4_set_attr (c : ProviderConfig) (s : String) (o : Option String) (n : Int) :
    providerConfigFrozen = false
    ∧ c.setAttr "model" (.str s) = .ok { c with model := s }
    ∧ c.setAttr "api_key" (.optStr o) = .ok { c with api_key := o }
    ∧ c.setAttr "base_url" (.optStr o) = .ok { c with base_url := o }
    ∧ c.setAttr "timeout" (.int n) = .ok { c with timeout := n }
    ∧ c.setAttr "max_retries" (.int n) = .ok { c with max_retries := n } :=
  ⟨rfl, rfl, rfl, rfl, rfl, rfl⟩

/-- Claim C8: ProviderConfig construction rejects timeout 0 and 301 and
accepts 1 and 300; rejects max_retries -1 and 11 and accepts 0 and 10;
rejects an empty or whitespace-only model; and rejects any unrecognized
field name. -/
theorem C8_config_validation :
    mkProviderConfig { model := some "test-model", timeout := some 0 } = .error .timeoutRange
    ∧ mkProviderConfig { model := some "test-model", timeout := some 301 } = .error .timeoutRange
    ∧ mkProviderConfig { model := some "test-model", timeout := some 1 }
        = .ok { model := "test-model", timeout := 1 }
    ∧ mkProviderConfig { model := some "test-model", timeout := some 300 }
        = .ok { model := "test-model", timeout := 300 }
    ∧ mkProviderConfig { model := some "test-model", max_retries := some (-1) }
        = .error .retriesRange
    ∧ mkProviderConfig { model := some "test-model", max_retries := some 11 }
        = .error .retriesRange
    ∧ mkProviderConfig { model := some "test-model", max_retries := some 0 }
        = .ok { model := "test-model", max_retries := 0 }
    ∧ mkProviderConfig { model := some "test-model", max_retries := some 10 }
        = .ok { model := "test-model", max_retries := 10 }
    ∧ (∀ m : String, pyStrip m = "" →
        mkProviderConfig { model := some m } = .error .emptyModel)
    ∧ (∀ i : ProviderConfigInput, i.extraFields ≠ [] →
        mkProviderConfig i = .error .extraForbidden) := by
  refine ⟨by decide, by decide, by decide, by decide, by decide, by decide, by decide, by decide,
    ?_, ?_⟩
  · intro m h
    simp [mkProviderConfig, h]
  · intro i h
    simp [mkProviderConfig, h]

/-- Claim C8 witness: a whitespace-only model and an unrecognized field are
rejected at concrete inputs. -/
theorem C8_witness :
    mkProviderConfig { model := some "   " } = .error .emptyModel
    ∧ mkProviderConfig { model := some "gpt-4", extraFields := ["temperature"] }
        = .error .extraForbidden :=
  ⟨C8_config_validation.2.2.2.2.2.2.2.2.1 "   " (by decide),
   C8_config_validation.2.2.2.2.2.2.2.2.2
     { model := some "gpt-4", extraFields := ["temperature"] } (by decide)⟩

/-- Claim C9: `_mask_key` returns the first 3 characters, "...", and the
last 3 characters when the key has length at least 6, and the fixed marker
"***" otherwise; with the four concrete instances of the claim. -/
theorem C9_mask_key (key : String) :
    (6 ≤ key.length →
      mask_key key = ⟨key.data.take 3⟩ ++ "..." ++ ⟨key.data.drop (key.data.length - 3)⟩)
    ∧ (key.length < 6 → mask_key key = "***")
    ∧ mask_key "sk-proj-abc123" = "sk-...123"
    ∧ mask_key "abcdef" = "abc...def"
    ∧ mask_key "abcde" = "***"
    ∧ mask_key "abc" = "***" := by
  refine ⟨?_, ?_, by decide, by decide, by decide, by decide⟩
  · intro h
    simp [mask_key, Nat.not_lt.mpr h]
  · intro h
    simp [mask_key, h]

/-- Claim C9 witness: the general clauses applied at concrete keys. -/
theorem C9_witness :
    mask_key "http://localhost:11434"
      = ⟨"http://localhost:11434".data.take 3⟩ ++ "..."
        ++ ⟨"http://localhost:11434".data.drop ("http://localhost:11434".data.length - 3)⟩
    ∧ mask_key "ab" = "***" :=
  ⟨(C9_mask_key "http://localhost:11434").1 (by decide),
   (C9_mask_key "ab").2.1 (by decide)⟩

/-- Claim C3: contrary to the claim (and to the docstring of
`KeyManager.__init__`), a relative SPECIFY_CONFIG_DIR does not make
construction fail: `Path(config_dir_env).resolve()` always returns an
absolute path (a relative one is resolved against the current working
directory), so the `is_absolute` rejection is unreachable and the relative
override is silently accepted. -/
theorem C3_relative_override_accepted :
    (∀ (env : Env) (cwd home : PyPath) (config_dir : Option PyPath),
      key_manager_init env cwd home config_dir ≠ .error .keyValidationError)
    ∧ key_manager_init
        (fun v => if v = "SPECIFY_CONFIG_DIR" then some "relative/path" else none)
        { absolute := true, parts := ["/cwd"] } { absolute := true, parts := ["/home/user"] }
        none
      = .ok { absolute := true, parts := ["/cwd", "relative/path"] } := by
  constructor
  · intro env cwd home config_dir
    unfold key_manager_init
    rcases config_dir with _ | d
    · rcases henv : env "SPECIFY_CONFIG_DIR" with _ | s
      · simp
      · by_cases hs : s ≠ ""
        · simp [hs, pathResolve_isAbs]
        · simp [hs]
    · simp
  · decide

/-- Claim C3 witness: the first clause applied at a concrete environment. -/
theorem C3_witness :
    key_manager_init (fun _ => none) { absolute := true, parts := ["/cwd"] }
      { absolute := true, parts := ["/home/user"] } none ≠ .error .keyValidationError :=
  C3_relative_override_accepted.1 (fun _ => none) _ _ none

/-- Claim C1: for a non-empty string x, decrypting the result of encrypting
x returns exactly x, both on the same CryptoManager instance and on a
separate instance constructed over the same configuration directory (the
16-byte salt written on first use is read back and reused, so both
instances derive the same key). `fresh₁` stands for the 16 random bytes
`secrets.token_bytes(16)` would produce if a salt had to be created. -/
theorem C1_encrypt_decrypt (fs : FS) (machineId : String) (fresh₁ fresh₂ : List Nat)
    (x : Str) (hfresh : fresh₁.length = 16) (_hx : x ≠ .lit "") :
    ((CryptoManager.decrypt machineId fresh₂
        (CryptoManager.encrypt machineId fresh₁ { fernet := none } fs x).2.1
        (CryptoManager.encrypt machineId fresh₁ { fernet := none } fs x).2.2
        (CryptoManager.encrypt machineId fresh₁ { fernet := none } fs x).1).1 = some x)
    ∧ ((CryptoManager.decrypt machineId fresh₂ { fernet := none }
        (CryptoManager.encrypt machineId fresh₁ { fernet := none } fs x).2.2
        (CryptoManager.encrypt machineId fresh₁ { fernet := none } fs x).1).1 = some x) := by
  have hspec := load_or_create_salt_spec fs fresh₁ hfresh
  have he : CryptoManager.encrypt machineId fresh₁ { fernet := none } fs x
      = (.tok (derive_key machineId (load_or_create_salt fs fresh₁).1) x,
         { fernet := some (derive_key machineId (load_or_create_salt fs fresh₁).1) },
         (load_or_create_salt fs fresh₁).2) := rfl
  constructor
  · rw [he]
    simp [CryptoManager.decrypt,
      get_fernet_of_cached machineId fresh₂ _ (load_or_create_salt fs fresh₁).2 _ rfl]
  · rw [he]
    have h2 : load_or_create_salt (load_or_create_salt fs fresh₁).2 fresh₂
        = ((load_or_create_salt fs fresh₁).1, (load_or_create_salt fs fresh₁).2) :=
      load_or_create_salt_of_good _ _ hspec.1 hspec.2 fresh₂
    simp [CryptoManager.decrypt, get_fernet, h2]

/-- Claim C1 witness: the roundtrip at a concrete machine id, salt and
plaintext. -/
theorem C1_witness :
    (List.replicate 16 0).length = 16
    ∧ Str.lit "secret" ≠ Str.lit ""
    ∧ ((CryptoManager.decrypt "machine-a" [9]
          (CryptoManager.encrypt "machine-a" (List.replicate 16 0) { fernet := none }
            { saltFile := none, keysFile := none } (.lit "secret")).2.1
          (CryptoManager.encrypt "machine-a" (List.replicate 16 0) { fernet := none }
            { saltFile := none, keysFile := none } (.lit "secret")).2.2
          (CryptoManager.encrypt "machine-a" (List.replicate 16 0) { fernet := none }
            { saltFile := none, keysFile := none } (.lit "secret")).1).1
        = some (.lit "secret"))
    ∧ ((CryptoManager.decrypt "machine-a" [9] { fernet := none }
          (CryptoManager.encrypt "machine-a" (List.replicate 16 0) { fernet := none }
            { saltFile := none, keysFile := none } (.lit "secret")).2.2
          (CryptoManager.encrypt "machine-a" (List.replicate 16 0) { fernet := none }
            { saltFile := none, keysFile := none } (.lit "secret")).1).1
        = some (.lit "secret")) :=
  ⟨by decide, by decide,
   (C1_encrypt_decrypt { saltFile := none, keysFile := none } "machine-a"
     (List.replicate 16 0) [9] (.lit "secret") (by decide) (by decide)).1,
   (C1_encrypt_decrypt { saltFile := none, keysFile := none } "machine-a"
     (List.replicate 16 0) [9] (.lit "secret") (by decide) (by decide)).2⟩

/-- Claim C2: for every provider whose lowercasing is in the supported set
and every credential that is non-empty after stripping, a successful
store_key followed by get_key on the same KeyManager returns exactly the
stripped credential. -/
theorem C2_store_then_get (env : Env) (machineId : String) (fresh₁ fresh₂ : List Nat)
    (cm cm2 : CryptoManager) (fs fs2 : FS) (provider : String) (value : Str)
    (hp : VALID_PROVIDERS.contains (pyLower provider) = true)
    (hv : value.strip ≠ .lit "")
    (hstore : store_key machineId fresh₁ cm fs provider value = (.ok (), cm2, fs2)) :
    (get_key env machineId fresh₂ cm2 fs2 provider).1 = .ok value.strip := by
  have ht := Str.truthy_of_strip_ne value hv
  have hst := Str.strip_truthy_of_ne value hv
  simp only [store_key, hp, ht, hst, Bool.not_true, Bool.or_self, Bool.false_eq_true,
    if_false] at hstore
  rcases hload : load_keys machineId fresh₁ cm fs with ⟨r, cmA, fsA⟩
  rw [hload] at hstore
  rcases r with e | keys
  · simp at hstore
  · simp only [Prod.mk.injEq] at hstore
    obtain ⟨-, hcm2, hfs2⟩ := hstore
    have hkeysN : dset keys (pyLower provider) value.strip ≠ [] := dset_ne_nil _ _ _
    have hsave := save_keys_eq machineId fresh₁ cmA fsA _ hkeysN
    rw [hsave] at hcm2 hfs2
    subst hcm2
    subst hfs2
    have hdec := decryptEntries_cached machineId fresh₂ _
      ({ (get_fernet machineId fresh₁ cmA fsA).2.2 with keysFile := some (.data
        { version := some 2, encrypted := some true,
          entries := (dset keys (pyLower provider) value.strip).map
            (fun pv => (pv.1, Str.tok (get_fernet machineId fresh₁ cmA fsA).1 pv.2)) }) })
      _ (get_fernet_cached_after machineId fresh₁ cmA fsA)
      (dset keys (pyLower provider) value.strip)
    simp [get_key, load_keys, hdec, dlookup_dset_self]

/-- Claim C2 witness: storing "  sk-test123  " for provider "OpenAI" on a
fresh configuration directory and reading it back. -/
theorem C2_witness :
    (get_key (fun _ => none) "machine-b" [] c2_store_result.2.1 c2_store_result.2.2
      "OpenAI").1 = .ok (Str.lit "  sk-test123  ").strip :=
  C2_store_then_get (fun _ => none) "machine-b" (List.replicate 16 0) []
    { fernet := none } c2_store_result.2.1 { saltFile := none, keysFile := none }
    c2_store_result.2.2 "OpenAI" (.lit "  sk-test123  ")
    (by decide) (by decide) (by decide)

/-- Claim C5 counterexample: a keys.json whose top-level record lacks the
encrypted format marker but has no non-metadata entry is NOT re-persisted:
`_load_keys` leaves the state untouched (the source guards the migration
with `if needs_migration and result`), so afterwards the file still lacks
the _version/_encrypted markers, contrary to the quantification of the
claim over every legacy file. -/
theorem C5_counterexample :
    (({ version := none, encrypted := none, entries := [] } : KeysFileData).encrypted.getD false
      = false)
    ∧ load_keys "machine-id" [] { fernet := none }
        { saltFile := none,
          keysFile := some (.data { version := none, encrypted := none, entries := [] }) }
      = (.ok [], { fernet := none },
         { saltFile := none,
           keysFile := some (.data { version := none, encrypted := none, entries := [] }) }) := by
  constructor
  · rfl
  · rfl

/-- Claim C5 (amended): for every on-disk key file lacking the encrypted
format marker that holds at least one non-metadata entry, loading returns
every non-metadata value as-is, and the load immediately re-persists the
record set in the encrypted format: the file then carries _version 2 and
_encrypted true, and every stored value is the ciphertext of the
corresponding plaintext, not the plaintext itself. -/
theorem C5_legacy_migration (machineId : String) (fresh : List Nat) (cm : CryptoManager)
    (fs : FS) (d : KeysFileData)
    (hfile : fs.keysFile = some (.data d))
    (hlegacy : d.encrypted.getD false = false)
    (hne : d.entries ≠ []) :
    (load_keys machineId fresh cm fs).1 = .ok d.entries
    ∧ ∃ K : FernetKey,
        ((load_keys machineId fresh cm fs).2.2).keysFile
          = some (.data
              { version := some 2, encrypted := some true,
                entries := d.entries.map (fun pv => (pv.1, Str.tok K pv.2)) })
        ∧ ∀ pv ∈ d.entries, Str.tok K pv.2 ≠ pv.2 := by
  have hsave := save_keys_eq machineId fresh cm fs d.entries hne
  constructor
  · simp [load_keys, hfile, hlegacy, hne]
  · refine ⟨(get_fernet machineId fresh cm fs).1, ?_, fun pv _ => Str.tok_ne pv.2 _⟩
    simp [load_keys, hfile, hlegacy, hne, hsave]

/-- Claim C5 witness: loading the legacy file with the single plaintext
entry for "openai". -/
theorem C5_witness :
    (load_keys "machine-d" (List.replicate 16 7) { fernet := none } c5_legacy_fs).1
      = .ok [("openai", Str.lit "sk-plain-text-key")]
    ∧ ∃ K : FernetKey,
        ((load_keys "machine-d" (List.replicate 16 7) { fernet := none } c5_legacy_fs).2.2).keysFile
          = some (.data
              { version := some 2, encrypted := some true,
                entries := [("openai", Str.lit "sk-plain-text-key")].map
                  (fun pv => (pv.1, Str.tok K pv.2)) })
        ∧ ∀ pv ∈ [("openai", Str.lit "sk-plain-text-key")], Str.tok K pv.2 ≠ pv.2 :=
  C5_legacy_migration "machine-d" (List.replicate 16 7) { fernet := none } c5_legacy_fs
    { version := none, encrypted := none, entries := [("openai", .lit "sk-plain-text-key")] }
    (by decide) (by decide) (by decide)

/-- Claim C10: for a supported provider absent from the local store whose
mapped environment variable is set to the empty string, key_exists returns
True (it only tests that the variable is set) while get_key raises
KeyNotFoundError (it also requires the value to be truthy). -/
theorem C10_exists_get_disagree (env : Env) (machineId : String) (fresh : List Nat)
    (cm cmA : CryptoManager) (fs fsA : FS) (provider envVarName : String)
    (keys : List (String × Str))
    (hmap : ENV_VAR_MAPPING (pyLower provider) = some envVarName)
    (henv : env envVarName = some "")
    (hload : load_keys machineId fresh cm fs = (.ok keys, cmA, fsA))
    (hnokey : dlookup keys (pyLower provider) = none) :
    (key_exists env machineId fresh cm fs provider).1 = .ok true
    ∧ (get_key env machineId fresh cm fs provider).1
        = .error (.keyNotFoundError (pyLower provider)) := by
  constructor
  · simp [key_exists, hload, hnokey, hmap, henv]
  · simp [get_key, hload, hnokey, hmap, henv]

/-- Claim C10 witness: provider "anthropic" with ANTHROPIC_API_KEY set to
the empty string and an empty local store. -/
theorem C10_witness :
    (key_exists (fun v => if v = "ANTHROPIC_API_KEY" then some "" else none) "machine-c" []
      { fernet := none } { saltFile := none, keysFile := none } "anthropic").1 = .ok true
    ∧ (get_key (fun v => if v = "ANTHROPIC_API_KEY" then some "" else none) "machine-c" []
      { fernet := none } { saltFile := none, keysFile := none } "anthropic").1
        = .error (.keyNotFoundError (pyLower "anthropic")) :=
  C10_exists_get_disagree (fun v => if v = "ANTHROPIC_API_KEY" then some "" else none)
    "machine-c" [] { fernet := none } { fernet := none }
    { saltFile := none, keysFile := none } { saltFile := none, keysFile := none }
    "anthropic" "ANTHROPIC_API_KEY" []
    (by decide) (by decide) (by decide) (by decide)

end Specify
